import Mathlib

/-!
Verification of `proxy/create_container_interceptor.go` (weave docker proxy).

The file embeds the interceptor's data model and operations shallowly:

* JSON documents are modelled by the mutual inductive `Weave.JVal` /
  `Weave.JArr` / `Weave.JObj`; `encoding/json` decoding into the typed
  struct `createContainerRequestBody` (which embeds `*docker.Config` and
  holds `HostConfig` and `MacAddress`) is modelled by `Weave.decodeBody`,
  and `json.Marshal` of that struct by `Weave.encodeBody`.  As in Go,
  unknown object keys are ignored on decode and hence absent from the
  re-encoded output, a later duplicate key wins, and fields tagged
  `omitempty` are omitted when empty.
* Go `[]string` fields on which the code distinguishes `nil` from a
  present-but-empty slice (`Entrypoint`, `Cmd`) are `Option (List String)`;
  `none` is Go `nil`.  `slen` is Go's `len` on such a field.
* Go strings are Lean `String`s; `strings.Split(s, ":")` is `splitColon`,
  `strings.TrimSuffix(s, ".")` is `trimDot`, and Go's byte-counting `len`
  on a string is `String.utf8ByteSize`.
* The proxy's configuration and its three external collaborators (the
  address resolver `weaveCIDRsFromConfig`, the engine's `InspectImage`,
  and the result of `getDNSDomain`, whose HTTP lookup is out of scope) are
  carried as fields of the `Proxy` structure, so every operation is a pure
  function of its inputs.
-/

namespace Weave

/- A JSON value, as handled by `encoding/json`.  Objects and arrays are
given by the companion mutual inductives so that all recursions over a
document are structural. -/
mutual
/-- A JSON value. -/
inductive JVal where
  | null
  | bool (b : Bool)
  | num (n : Int)
  | str (s : String)
  | arr (xs : JArr)
  | obj (fs : JObj)
deriving DecidableEq, Repr

/-- A JSON array: a list of JSON values. -/
inductive JArr where
  | nil
  | cons (hd : JVal) (tl : JArr)
deriving DecidableEq, Repr

/-- A JSON object: an ordered list of key/value fields (keys may repeat in
a raw document; `encoding/json` lets the last occurrence win). -/
inductive JObj where
  | nil
  | cons (key : String) (val : JVal) (tl : JObj)
deriving DecidableEq, Repr
end

/-- Value of key `k` in an object; as in `encoding/json` decoding, the
last occurrence of a duplicated key wins. -/
def JObj.lookupLast : JObj → String → Option JVal
  | .nil, _ => none
  | .cons key v tl, k =>
    match JObj.lookupLast tl k with
    | some r => some r
    | none => if key = k then some v else none

/-- Decode a JSON array into a Go `[]string`, failing on a non-string
element, as `encoding/json` does for `[]string` fields. -/
def JArr.asStringList : JArr → Except String (List String)
  | .nil => .ok []
  | .cons (.str s) tl => (JArr.asStringList tl).map (fun l => s :: l)
  | .cons _ _ => .error "json: cannot unmarshal array element into string"

/-- Encode a Go `[]string` as a JSON array. -/
def JArr.ofStrings : List String → JArr
  | [] => .nil
  | s :: tl => .cons (.str s) (JArr.ofStrings tl)

/- Serialization of a JSON value back to wire bytes (modelling
`json.Marshal` output up to the key ordering the spec disregards); used
only to recompute the forwarded request's content length. -/
mutual
/-- Serialize one JSON value. -/
def serializeJ : JVal → String
  | .null => "null"
  | .bool true => "true"
  | .bool false => "false"
  | .num n => toString n
  | .str s => "\"" ++ s ++ "\""
  | .arr xs => "[" ++ serializeArr xs ++ "]"
  | .obj fs => "\x7b" ++ serializeObj fs ++ "\x7d"

def serializeArr : JArr → String
  | .nil => ""
  | .cons x .nil => serializeJ x
  | .cons x tl => serializeJ x ++ "," ++ serializeArr tl

def serializeObj : JObj → String
  | .nil => ""
  | .cons k v .nil => "\"" ++ k ++ "\":" ++ serializeJ v
  | .cons k v tl => "\"" ++ k ++ "\":" ++ serializeJ v ++ "," ++ serializeObj tl
end

/-- The slice of `docker.Config` the interceptor reads or writes (the
remaining fields of the real struct are decoded and re-encoded by the very
same `encoding/json` mechanism and are never inspected by this file's
code).  `Entrypoint`/`Cmd` are `Option (List String)` because the Go code
distinguishes a `nil` slice (`none`) from a present-but-empty one
(`some []`).  A `nil` embedded `*docker.Config` and a zero-valued one are
indistinguishable both to the mutations and to the `omitempty`-tagged
encoder, so the embedded pointer is modelled as a plain struct with zero
defaults. -/
structure Config where
  Image : String := ""
  Hostname : String := ""
  Domainname : String := ""
  Entrypoint : Option (List String) := none
  Cmd : Option (List String) := none
deriving DecidableEq, Repr

/-- The slice of `docker.HostConfig` the interceptor reads or writes.
For these fields the Go code never distinguishes `nil` from empty, so
they are plain lists. -/
structure HostConfig where
  Binds : List String := []
  DNS : List String := []
  DNSSearch : List String := []
deriving DecidableEq, Repr

/-- Go's `len` on an optional slice: `len(nil) == 0`. -/
def slen : Option (List String) → Nat
  | none => 0
  | some l => l.length

/-- The decoded request body `createContainerRequestBody`: the embedded
`*docker.Config` (promoted to top-level JSON keys), the `HostConfig`
pointer (`none` is Go `nil`) and `MacAddress`. -/
structure createContainerRequestBody where
  Config : Config := {}
  HostConfig : Option HostConfig := none
  MacAddress : String := ""
deriving DecidableEq, Repr

/-- Result of the engine's `InspectImage`: the image carries its default
config (`image.Config.Cmd`, `image.Config.Entrypoint`). -/
structure DockerImage where
  Config : Config := {}
deriving DecidableEq, Repr

/-- How `InspectImage` can fail: `docker.ErrNoSuchImage`, or any other
engine error (carried verbatim as its message). -/
inductive ImageInspectError where
  | noSuchImage
  | other (msg : String)
deriving DecidableEq, Repr

/-- String field decode: absent or `null` leaves the zero value, a JSON
string sets it, anything else is an unmarshal type error. -/
def getStringField (o : JObj) (k : String) : Except String String :=
  match o.lookupLast k with
  | none => .ok ""
  | some .null => .ok ""
  | some (.str s) => .ok s
  | some _ => .error ("json: cannot unmarshal field " ++ k ++ " into string")

/-- Optional-slice (`[]string`) field decode: absent or `null` gives the
`nil` slice, an array of strings gives a present slice. -/
def getStringListField (o : JObj) (k : String) : Except String (Option (List String)) :=
  match o.lookupLast k with
  | none => .ok none
  | some .null => .ok none
  | some (.arr xs) => (xs.asStringList).map some
  | some _ => .error ("json: cannot unmarshal field " ++ k ++ " into string slice")

/-- Plain `[]string` field decode where the code never looks at nil-ness:
the `nil` slice collapses to `[]`. -/
def getStringsField (o : JObj) (k : String) : Except String (List String) :=
  (getStringListField o k).map (fun x => x.getD [])

/-- Decode of the `HostConfig` sub-object. -/
def decodeHostConfig (o : JObj) : Except String HostConfig := do
  let binds ← getStringsField o "Binds"
  let dns ← getStringsField o "Dns"
  let dnsSearch ← getStringsField o "DnsSearch"
  .ok { Binds := binds, DNS := dns, DNSSearch := dnsSearch }

/-- Model of `json.Unmarshal(body, &container)` for
`createContainerRequestBody`: modeled keys are extracted with their Go
types, every other key is ignored (as `encoding/json` does), and a
non-object body is a decode error. -/
def decodeBody : JVal → Except String createContainerRequestBody
  | .obj o => do
      let image ← getStringField o "Image"
      let hostname ← getStringField o "Hostname"
      let domainname ← getStringField o "Domainname"
      let entrypoint ← getStringListField o "Entrypoint"
      let cmd ← getStringListField o "Cmd"
      let mac ← getStringField o "MacAddress"
      let hostConfig ←
        match o.lookupLast "HostConfig" with
        | none => Except.ok none
        | some .null => Except.ok none
        | some (.obj ho) => (decodeHostConfig ho).map some
        | some _ => Except.error "json: cannot unmarshal field HostConfig into object"
      .ok { Config := { Image := image, Hostname := hostname, Domainname := domainname,
                        Entrypoint := entrypoint, Cmd := cmd },
            HostConfig := hostConfig, MacAddress := mac }
  | _ => .error "json: cannot unmarshal request body into object"

/-- Encoder for an `omitempty` string field. -/
def encodeStringField (k s : String) (tl : JObj) : JObj :=
  if s = "" then tl else .cons k (.str s) tl

/-- Encoder for an `omitempty` plain `[]string` field (a zero-length
slice, `nil` or not, is omitted). -/
def encodeStringsField (k : String) (xs : List String) (tl : JObj) : JObj :=
  if xs = [] then tl else .cons k (.arr (JArr.ofStrings xs)) tl

/-- Encoder for an `omitempty` optional `[]string` field. -/
def encodeOptStringsField (k : String) (xs : Option (List String)) (tl : JObj) : JObj :=
  match xs with
  | none => tl
  | some l => if l = [] then tl else .cons k (.arr (JArr.ofStrings l)) tl

/-- Encode of the `HostConfig` sub-object. -/
def encodeHostConfig (h : HostConfig) : JVal :=
  .obj (encodeStringsField "Binds" h.Binds
       (encodeStringsField "Dns" h.DNS
       (encodeStringsField "DnsSearch" h.DNSSearch .nil)))

/-- Model of `json.Marshal(container)`: the modeled keys of the typed
struct are emitted (in one fixed order; the spec compares payloads modulo
key ordering) and nothing else — in particular no key the decoder
ignored. -/
def encodeBody (b : createContainerRequestBody) : JVal :=
  .obj (encodeStringField "Hostname" b.Config.Hostname
       (encodeStringField "Domainname" b.Config.Domainname
       (encodeStringField "Image" b.Config.Image
       (encodeOptStringsField "Entrypoint" b.Config.Entrypoint
       (encodeOptStringsField "Cmd" b.Config.Cmd
       (match b.HostConfig with
        | none => encodeStringField "MacAddress" b.MacAddress .nil
        | some hc => .cons "HostConfig" (encodeHostConfig hc)
                       (encodeStringField "MacAddress" b.MacAddress .nil)))))))

/-- Character-level model of Go `strings.Split(s, ":")` (the separator is
the single character `:`; `strings.Split` of the empty string is
`[""]`). -/
def splitColonChars : List Char → List (List Char)
  | [] => [[]]
  | c :: cs =>
    let rest := splitColonChars cs
    if c = ':' then [] :: rest
    else match rest with
      | r :: rs => (c :: r) :: rs
      | [] => [[c]]

/-- Go `strings.Split(bind, ":")`. -/
def splitColon (s : String) : List String :=
  (splitColonChars s.data).map (fun cs => ⟨cs⟩)

/-- Go `strings.TrimSuffix(s, ".")`: remove one trailing period if
present. -/
def trimDot (s : String) : String :=
  if s.data.getLast? = some '.' then ⟨s.data.dropLast⟩ else s

/-- The loop test of `addWeaveWaitVolume`: `s := strings.Split(bind, ":")`
and the entry is skipped when `len(s) >= 2 && s[1] == "/w"` — its
mount-target component is the reserved path. -/
def isWeaveWaitTarget (bind : String) : Bool :=
  let s := splitColon bind
  decide (2 ≤ s.length) && ((s.getD 1 "") == "/w")

/-- The entry `fmt.Sprintf("%s:/w:ro", i.proxy.weaveWaitVolume)`. -/
def weaveWaitBind (vol : String) : String := vol ++ ":/w:ro"

/-- The filtering loop of `addWeaveWaitVolume`: keep each original bind
unless its mount target is `/w`. -/
def addWeaveWaitBinds : List String → List String
  | [] => []
  | bind :: rest =>
    if isWeaveWaitTarget bind then addWeaveWaitBinds rest
    else bind :: addWeaveWaitBinds rest

/-- Model of `(*createContainerInterceptor).addWeaveWaitVolume`: drop any
existing `/w`-targeted bind and append the support-volume entry. -/
def addWeaveWaitVolume (vol : String) (h : HostConfig) : HostConfig :=
  { h with Binds := addWeaveWaitBinds h.Binds ++ [weaveWaitBind vol] }

/-- Errors of `setWeaveWaitEntrypoint`: `ErrNoSuchImage` (carrying the
image name), a verbatim-propagated engine error, or
`ErrNoCommandSpecified`. -/
inductive WaitError where
  | noSuchImage (name : String)
  | engine (msg : String)
  | noCommandSpecified
deriving DecidableEq, Repr

/-- The two image-default assignments inside the
`len(container.Entrypoint) == 0` block: an empty `Cmd` takes the image's
default command; a `nil` (unset) `Entrypoint` takes the image's default
entrypoint. -/
def imageDefaults (image : DockerImage) (c : Config) : Config :=
  let c := if slen c.Cmd = 0 then { c with Cmd := image.Config.Cmd } else c
  if c.Entrypoint = none then { c with Entrypoint := image.Config.Entrypoint } else c

/-- The `len(container.Entrypoint) == 0` block of
`setWeaveWaitEntrypoint`: inspect the image, translating
`docker.ErrNoSuchImage` into `ErrNoSuchImage{container.Image}` and
propagating any other engine error unchanged, then apply the image
defaults. -/
def entrypointFromImage (inspectImage : String → Except ImageInspectError DockerImage)
    (c : Config) : Except WaitError Config :=
  if slen c.Entrypoint = 0 then
    match inspectImage c.Image with
    | .error .noSuchImage => .error (.noSuchImage c.Image)
    | .error (.other e) => .error (.engine e)
    | .ok image => .ok (imageDefaults image c)
  else .ok c

/-- The tail of `setWeaveWaitEntrypoint`: fail with
`ErrNoCommandSpecified` when both `Entrypoint` and `Cmd` are still empty,
then prepend `weaveWaitEntrypoint` unless the entrypoint is non-empty and
its first element already equals `weaveWaitEntrypoint[0]`.  (The Go code
reads `ww[0]` only when the entrypoint is non-empty; `ww`, the
package-level wrapper sequence, is non-empty in the real proxy, which the
theorems assume where its head matters.) -/
def wrapEntrypoint (ww : List String) (c : Config) : Except WaitError Config :=
  if slen c.Entrypoint = 0 ∧ slen c.Cmd = 0 then .error .noCommandSpecified
  else if slen c.Entrypoint = 0 ∨ (c.Entrypoint.getD []).headD "" ≠ ww.headD "" then
    .ok { c with Entrypoint := some (ww ++ c.Entrypoint.getD []) }
  else .ok c

/-- Model of `(*createContainerInterceptor).setWeaveWaitEntrypoint`: the
image block (with its early error returns) followed by the
no-command check and the wrapping. -/
def setWeaveWaitEntrypoint (ww : List String)
    (inspectImage : String → Except ImageInspectError DockerImage)
    (c : Config) : Except WaitError Config :=
  (entrypointFromImage inspectImage c).bind (wrapEntrypoint ww)

/-- Go `MaxDockerHostname`. -/
def MaxDockerHostname : Nat := 64

/-- The proxy's configuration together with its external collaborators,
so that each operation is a pure function of its inputs: `inspectImage`
is the engine's `InspectImage`; `weaveCIDRsFromConfig` is the address
resolver (its error means "no network participation"); `dnsDomain` and
`dnsRunning` are the two results of `getDNSDomain`, whose best-effort
HTTP lookup never fails the caller; `weaveWaitEntrypoint` is the
package-level wrapper sequence. -/
structure Proxy where
  WithoutDNS : Bool := false
  WithDNS : Bool := false
  dockerBridgeIP : String := ""
  weaveWaitVolume : String := ""
  weaveWaitEntrypoint : List String := []
  inspectImage : String → Except ImageInspectError DockerImage := fun _ => .error .noSuchImage
  weaveCIDRsFromConfig : Config → Option HostConfig → Except String (List String) :=
    fun _ _ => .error ""
  dnsDomain : String := ""
  dnsRunning : Bool := false

/-- Model of `(*createContainerInterceptor).setWeaveDNS` (which returns
`nil` on every path, so it is a pure transformation of the config and
host config).  `nameParam` is `r.URL.Query().Get("name")`, the empty
string when absent. -/
def setWeaveDNS (p : Proxy) (nameParam : String) (c : Config) (h : HostConfig) :
    Config × HostConfig :=
  if p.WithoutDNS then (c, h)
  else if !(p.dnsRunning || p.WithDNS) then (c, h)
  else
    let h := { h with DNS := h.DNS ++ [p.dockerBridgeIP] }
    let c :=
      if c.Hostname = "" ∧ nameParam ≠ "" then
        let trimmedDNSDomain := trimDot p.dnsDomain
        if nameParam.utf8ByteSize + 1 + trimmedDNSDomain.utf8ByteSize > MaxDockerHostname then
          c
        else { c with Hostname := nameParam, Domainname := trimmedDNSDomain }
      else c
    let h :=
      if h.DNSSearch.length = 0 then
        if c.Hostname = "" then { h with DNSSearch := [p.dnsDomain] }
        else { h with DNSSearch := ["."] }
      else h
    (c, h)

/-- Errors `InterceptRequest` can return: a JSON decode failure or a
`setWeaveWaitEntrypoint` failure.  (Body-read errors are I/O outside the
model; `setWeaveDNS` never fails.) -/
inductive InterceptError where
  | decodeFailure (msg : String)
  | waitFailure (e : WaitError)
deriving DecidableEq, Repr

/-- Model of `(*createContainerInterceptor).InterceptRequest`: decode the
body; on address-resolver success (only), lazily allocate `HostConfig`,
inject the wait volume, wrap the entrypoint and configure DNS; re-encode
and return the new body together with the new `ContentLength` (the byte
length of the marshalled body). -/
def InterceptRequest (p : Proxy) (nameParam : String) (body : JVal) :
    Except InterceptError (JVal × Nat) :=
  match decodeBody body with
  | .error e => .error (.decodeFailure e)
  | .ok container =>
    let step : Except InterceptError createContainerRequestBody :=
      match p.weaveCIDRsFromConfig container.Config container.HostConfig with
      | .error _ => .ok container
      | .ok _ =>
        let hostConfig := container.HostConfig.getD {}
        let config := container.Config
        let hostConfig := addWeaveWaitVolume p.weaveWaitVolume hostConfig
        match setWeaveWaitEntrypoint p.weaveWaitEntrypoint p.inspectImage config with
        | .error e => .error (.waitFailure e)
        | .ok config =>
          let cfgHost := setWeaveDNS p nameParam config hostConfig
          .ok { container with Config := cfgHost.1, HostConfig := some cfgHost.2 }
    match step with
    | .error e => .error e
    | .ok container =>
      let newBody := encodeBody container
      .ok (newBody, (serializeJ newBody).utf8ByteSize)

/-! ## Theorems -/

/-- C7: if the operator has disabled DNS integration (`WithoutDNS`), or
the sibling name service is not running and DNS is not force-enabled,
`setWeaveDNS` performs no mutation at all: the config (hostname, domain)
and the host config (dns, dnsSearch) come back unchanged, regardless of
all other inputs. -/
theorem setWeaveDNS_skips_when_disabled (p : Proxy) (nameParam : String)
    (c : Config) (h : HostConfig)
    (hskip : p.WithoutDNS = true ∨ (p.dnsRunning = false ∧ p.WithDNS = false)) :
    setWeaveDNS p nameParam c h = (c, h) := by
  unfold setWeaveDNS
  rcases hskip with h1 | ⟨h2, h3⟩
  · simp [h1]
  · rw [h2, h3]
    cases hw : p.WithoutDNS <;> simp

/-- Witness for C7 at a concrete input. -/
theorem setWeaveDNS_skips_when_disabled_witness :
    setWeaveDNS { WithoutDNS := true, dnsRunning := true } "box" {} {} = ({}, {}) :=
  setWeaveDNS_skips_when_disabled _ _ _ _ (Or.inl rfl)

/-- C8: when the DNS step proceeds and `dnsSearch` is empty, it is set to
`[dnsDomain]` if the hostname is still unset after the hostname step and
to `["."]` if a hostname was assigned; a non-empty `dnsSearch` is left
unchanged. -/
theorem setWeaveDNS_dnsSearch_default (p : Proxy) (nameParam : String)
    (c : Config) (h : HostConfig)
    (h1 : p.WithoutDNS = false) (h2 : (p.dnsRunning || p.WithDNS) = true) :
    (h.DNSSearch = [] →
      (setWeaveDNS p nameParam c h).2.DNSSearch =
        if (setWeaveDNS p nameParam c h).1.Hostname = "" then [p.dnsDomain] else ["."])
    ∧ (h.DNSSearch ≠ [] → (setWeaveDNS p nameParam c h).2.DNSSearch = h.DNSSearch) := by
  unfold setWeaveDNS
  rw [h1, h2]
  simp only [Bool.false_eq_true, if_false, Bool.not_true]
  constructor <;> intro hse <;> split_ifs <;> simp_all

/-- Witness for C8 at a concrete input. -/
theorem setWeaveDNS_dnsSearch_default_witness :
    (setWeaveDNS { WithDNS := true, dnsDomain := "weave.local." } "" {} {}).2.DNSSearch =
      ["weave.local."] := by
  have h := (setWeaveDNS_dnsSearch_default { WithDNS := true, dnsDomain := "weave.local." }
      "" {} {} rfl rfl).1 rfl
  rw [h]
  rfl

/-- C6: when the DNS step proceeds, the spec has no hostname and the
request carries a non-empty `name`: if `len(name) + 1 + len(trimmedDomain)`
exceeds `MaxDockerHostname` (64) the hostname and domain are left alone
(only a warning is logged), and otherwise the hostname becomes `name` and
the domain the DNS domain with a single trailing period removed; the
cutoff is exact (`>` 64, so a combined byte length of 64 still sets the
hostname and 65 does not — the witness checks 64, 65, and a 64-byte name
with a non-empty domain). -/
theorem setWeaveDNS_hostname_cutoff (p : Proxy) (nameParam : String)
    (c : Config) (h : HostConfig)
    (h1 : p.WithoutDNS = false) (h2 : (p.dnsRunning || p.WithDNS) = true)
    (h3 : c.Hostname = "") (h4 : nameParam ≠ "") :
    (nameParam.utf8ByteSize + 1 + (trimDot p.dnsDomain).utf8ByteSize > MaxDockerHostname →
      (setWeaveDNS p nameParam c h).1.Hostname = "" ∧
      (setWeaveDNS p nameParam c h).1.Domainname = c.Domainname)
    ∧ (nameParam.utf8ByteSize + 1 + (trimDot p.dnsDomain).utf8ByteSize ≤ MaxDockerHostname →
      (setWeaveDNS p nameParam c h).1.Hostname = nameParam ∧
      (setWeaveDNS p nameParam c h).1.Domainname = trimDot p.dnsDomain) := by
  unfold setWeaveDNS
  rw [h1, h2]
  simp only [Bool.false_eq_true, if_false, Bool.not_true]
  constructor
  · intro hgt
    rw [if_pos ⟨h3, h4⟩, if_pos hgt]
    exact ⟨h3, rfl⟩
  · intro hle
    rw [if_pos ⟨h3, h4⟩, if_neg (by omega)]
    exact ⟨rfl, rfl⟩

/-- Witness for C6: with domain `weave.local.` (trimmed to 11 bytes), a
52-byte name gives combined length 64 and sets the hostname, a 53-byte
name gives 65 and leaves it unset, and a 64-byte name leaves it unset. -/
theorem setWeaveDNS_hostname_cutoff_witness :
    (setWeaveDNS { WithDNS := true, dnsDomain := "weave.local." }
        (String.mk (List.replicate 52 'a')) {} {}).1.Hostname =
      String.mk (List.replicate 52 'a')
    ∧ (setWeaveDNS { WithDNS := true, dnsDomain := "weave.local." }
        (String.mk (List.replicate 53 'a')) {} {}).1.Hostname = ""
    ∧ (setWeaveDNS { WithDNS := true, dnsDomain := "weave.local." }
        (String.mk (List.replicate 64 'a')) {} {}).1.Hostname = "" :=
  ⟨((setWeaveDNS_hostname_cutoff { WithDNS := true, dnsDomain := "weave.local." }
      (String.mk (List.replicate 52 'a')) {} {} rfl rfl rfl (by decide)).2 (by decide)).1,
   ((setWeaveDNS_hostname_cutoff { WithDNS := true, dnsDomain := "weave.local." }
      (String.mk (List.replicate 53 'a')) {} {} rfl rfl rfl (by decide)).1 (by decide)).1,
   ((setWeaveDNS_hostname_cutoff { WithDNS := true, dnsDomain := "weave.local." }
      (String.mk (List.replicate 64 'a')) {} {} rfl rfl rfl (by decide)).1 (by decide)).1⟩

/-- The filtering loop keeps exactly the binds whose mount target is not
the reserved path, in order. -/
lemma addWeaveWaitBinds_eq_filter (l : List String) :
    addWeaveWaitBinds l = l.filter (fun b => ! isWeaveWaitTarget b) := by
  induction l with
  | nil => rfl
  | cons b tl ih => by_cases hb : isWeaveWaitTarget b <;> simp [addWeaveWaitBinds, hb, ih]

/-- Splitting on colons cuts exactly at the first colon after a colon-free
prefix. -/
lemma splitColonChars_append (l rest : List Char) (h : ':' ∉ l) :
    splitColonChars (l ++ ':' :: rest) = l :: splitColonChars rest := by
  induction l with
  | nil => simp [splitColonChars]
  | cons c cs ih =>
    simp only [List.mem_cons, not_or] at h
    simp only [List.cons_append, splitColonChars, List.append_eq]
    rw [ih h.2, if_neg (fun hc => h.1 hc.symm)]

/-- The appended support-volume entry itself has mount target `/w`,
provided the configured source path contains no colon (a colon in a bind
source is not a well-formed docker bind anyway). -/
lemma isWeaveWaitTarget_weaveWaitBind (vol : String) (hvol : ':' ∉ vol.data) :
    isWeaveWaitTarget (weaveWaitBind vol) = true := by
  have hdata : (weaveWaitBind vol).data = vol.data ++ ':' :: ['/', 'w', ':', 'r', 'o'] := rfl
  unfold isWeaveWaitTarget splitColon
  rw [hdata, splitColonChars_append _ _ hvol,
    show splitColonChars ['/', 'w', ':', 'r', 'o'] = [['/', 'w'], ['r', 'o']] from by decide]
  simp [List.getD]

/-- C5: for every binds sequence, `addWeaveWaitVolume` keeps the original
entries whose mount-target component (second colon-separated field) is
not `/w`, in their original order, and appends exactly one entry
`<vol>:/w:ro`; it touches nothing else of the host config; it is a pure
total function, and applying it twice gives the same binds as applying it
once.  The hypothesis that the source path has no colon makes the
appended entry recognisable by the removal test, which is what the
second application's deduplication relies on. -/
theorem addWeaveWaitVolume_spec (vol : String) (h : HostConfig) (hvol : ':' ∉ vol.data) :
    (addWeaveWaitVolume vol h).Binds =
        h.Binds.filter (fun b => ! isWeaveWaitTarget b) ++ [weaveWaitBind vol]
    ∧ (addWeaveWaitVolume vol h).DNS = h.DNS
    ∧ (addWeaveWaitVolume vol h).DNSSearch = h.DNSSearch
    ∧ addWeaveWaitVolume vol (addWeaveWaitVolume vol h) = addWeaveWaitVolume vol h := by
  refine ⟨by simp [addWeaveWaitVolume, addWeaveWaitBinds_eq_filter], rfl, rfl, ?_⟩
  unfold addWeaveWaitVolume
  simp [addWeaveWaitBinds_eq_filter, List.filter_append,
    isWeaveWaitTarget_weaveWaitBind vol hvol, List.filter_filter]

/-- Witness for C5 at a concrete input: one stale `/w` bind is removed,
the other binds survive in order, the new entry lands last, and a second
application is a no-op. -/
theorem addWeaveWaitVolume_spec_witness :
    (addWeaveWaitVolume "/var/lib/weave" { Binds := ["/host:/w", "/a:/b:ro"] }).Binds =
        ["/host:/w", "/a:/b:ro"].filter (fun b => ! isWeaveWaitTarget b) ++
          [weaveWaitBind "/var/lib/weave"]
    ∧ addWeaveWaitVolume "/var/lib/weave"
          (addWeaveWaitVolume "/var/lib/weave" { Binds := ["/host:/w", "/a:/b:ro"] }) =
        addWeaveWaitVolume "/var/lib/weave" { Binds := ["/host:/w", "/a:/b:ro"] } :=
  ⟨(addWeaveWaitVolume_spec "/var/lib/weave" { Binds := ["/host:/w", "/a:/b:ro"] }
      (by decide)).1,
   (addWeaveWaitVolume_spec "/var/lib/weave" { Binds := ["/host:/w", "/a:/b:ro"] }
      (by decide)).2.2.2⟩

/-- With a non-empty entrypoint the image block is skipped entirely:
`setWeaveWaitEntrypoint` is just the wrapping phase, whatever the engine
collaborator is. -/
lemma setWeaveWaitEntrypoint_nonempty_eq_wrap (ww : List String)
    (inspectImage : String → Except ImageInspectError DockerImage) (c : Config)
    (h0 : slen c.Entrypoint ≠ 0) :
    setWeaveWaitEntrypoint ww inspectImage c = wrapEntrypoint ww c := by
  unfold setWeaveWaitEntrypoint entrypointFromImage
  rw [if_neg h0]
  rfl

/-- The wrapping phase leaves an already-wrapped config untouched. -/
lemma wrapEntrypoint_of_head_eq (ww : List String) (c : Config)
    (h0 : slen c.Entrypoint ≠ 0)
    (hhead : (c.Entrypoint.getD []).headD "" = ww.headD "") :
    wrapEntrypoint ww c = .ok c := by
  unfold wrapEntrypoint
  rw [if_neg (by simp [h0]), if_neg (by push_neg; exact ⟨h0, hhead⟩)]

/-- The wrapping phase prepends the wrapper sequence when the first
elements differ. -/
lemma wrapEntrypoint_of_head_ne (ww : List String) (c : Config)
    (h0 : slen c.Entrypoint ≠ 0)
    (hhead : (c.Entrypoint.getD []).headD "" ≠ ww.headD "") :
    wrapEntrypoint ww c = .ok { c with Entrypoint := some (ww ++ c.Entrypoint.getD []) } := by
  unfold wrapEntrypoint
  rw [if_neg (by simp [h0]), if_pos (Or.inr hhead)]

/-- Any successful result of the wrapping phase has a non-empty
entrypoint whose first element is the wrapper's first element, and the
phase never touches `Cmd`. -/
lemma wrapEntrypoint_ok_shape (ww : List String) (c c2 : Config) (hww : ww ≠ [])
    (h : wrapEntrypoint ww c = .ok c2) :
    slen c2.Entrypoint ≠ 0 ∧ (c2.Entrypoint.getD []).headD "" = ww.headD ""
      ∧ c2.Cmd = c.Cmd := by
  unfold wrapEntrypoint at h
  split_ifs at h with hboth hwrap
  · cases h
    cases ww with
    | nil => exact absurd rfl hww
    | cons a tl => exact ⟨by simp [slen], by simp, rfl⟩
  · cases h
    push_neg at hwrap
    exact ⟨hwrap.1, hwrap.2, rfl⟩

/-- An already-wrapped entrypoint (non-empty, first element equal to the
wrapper's first element) passes through `setWeaveWaitEntrypoint`
untouched. -/
lemma setWeaveWaitEntrypoint_of_head_eq (ww : List String)
    (inspectImage : String → Except ImageInspectError DockerImage) (c : Config)
    (h0 : slen c.Entrypoint ≠ 0)
    (hhead : (c.Entrypoint.getD []).headD "" = ww.headD "") :
    setWeaveWaitEntrypoint ww inspectImage c = .ok c := by
  rw [setWeaveWaitEntrypoint_nonempty_eq_wrap ww inspectImage c h0]
  exact wrapEntrypoint_of_head_eq ww c h0 hhead

/-- C4: `setWeaveWaitEntrypoint` prepends the wrapper sequence exactly
when the (post-default) entrypoint is empty or its first element differs
from the wrapper's first element; an entrypoint already starting with the
wrapper's first element (wrapper-plus-arguments included) is left fully
unchanged, and the operation is idempotent on every successful result. -/
theorem setWeaveWaitEntrypoint_wrapping (ww : List String)
    (inspectImage : String → Except ImageInspectError DockerImage)
    (c c2 : Config) (hww : ww ≠ []) :
    (slen c.Entrypoint ≠ 0 → (c.Entrypoint.getD []).headD "" = ww.headD "" →
      setWeaveWaitEntrypoint ww inspectImage c = .ok c)
    ∧ (slen c.Entrypoint ≠ 0 → (c.Entrypoint.getD []).headD "" ≠ ww.headD "" →
      setWeaveWaitEntrypoint ww inspectImage c =
        .ok { c with Entrypoint := some (ww ++ c.Entrypoint.getD []) })
    ∧ (setWeaveWaitEntrypoint ww inspectImage c = .ok c2 →
      setWeaveWaitEntrypoint ww inspectImage c2 = .ok c2)
    ∧ (∀ d : Config, slen d.Entrypoint = 0 → slen d.Cmd ≠ 0 →
      wrapEntrypoint ww d = .ok { d with Entrypoint := some (ww ++ d.Entrypoint.getD []) }) := by
  refine ⟨fun h0 hhead => setWeaveWaitEntrypoint_of_head_eq ww inspectImage c h0 hhead,
    fun h0 hhead => ?_, fun hok => ?_, fun d hd0 hdc => ?_⟩
  · rw [setWeaveWaitEntrypoint_nonempty_eq_wrap ww inspectImage c h0]
    exact wrapEntrypoint_of_head_ne ww c h0 hhead
  · have hshape : slen c2.Entrypoint ≠ 0 ∧
        (c2.Entrypoint.getD []).headD "" = ww.headD "" := by
      unfold setWeaveWaitEntrypoint at hok
      rcases hfi : entrypointFromImage inspectImage c with e | c1 <;>
        rw [hfi] at hok <;> simp only [Except.bind] at hok
      · exact absurd hok (by simp)
      · exact ⟨(wrapEntrypoint_ok_shape ww c1 c2 hww hok).1,
          (wrapEntrypoint_ok_shape ww c1 c2 hww hok).2.1⟩
    exact setWeaveWaitEntrypoint_of_head_eq ww inspectImage c2 hshape.1 hshape.2
  · unfold wrapEntrypoint
    rw [if_neg (fun hb => hdc hb.2), if_pos (Or.inl hd0)]

/-- Witness for C4: an already-wrapped entrypoint `["/w/w", "run"]` is
left unchanged, and the wrapping is idempotent there. -/
theorem setWeaveWaitEntrypoint_wrapping_witness :
    setWeaveWaitEntrypoint ["/w/w"] (fun _ => .error .noSuchImage)
        { Entrypoint := some ["/w/w", "run"] } =
      .ok { Entrypoint := some ["/w/w", "run"] } :=
  (setWeaveWaitEntrypoint_wrapping ["/w/w"] (fun _ => .error .noSuchImage)
      { Entrypoint := some ["/w/w", "run"] } {} (by decide)).1 (by decide) (by decide)

/-- C10: for a config with non-empty entrypoint, `setWeaveWaitEntrypoint`
never consults the engine (the result does not depend on the
image-inspection collaborator), never fails, leaves `Cmd` unchanged, and
at most prepends the wrapper sequence to the entrypoint. -/
theorem setWeaveWaitEntrypoint_nonempty_frame (ww : List String)
    (inspect1 inspect2 : String → Except ImageInspectError DockerImage)
    (c : Config) (h0 : slen c.Entrypoint ≠ 0) :
    setWeaveWaitEntrypoint ww inspect1 c = setWeaveWaitEntrypoint ww inspect2 c
    ∧ ∃ c2, setWeaveWaitEntrypoint ww inspect1 c = .ok c2 ∧ c2.Cmd = c.Cmd ∧
        (c2 = c ∨ c2 = { c with Entrypoint := some (ww ++ c.Entrypoint.getD []) }) := by
  rw [setWeaveWaitEntrypoint_nonempty_eq_wrap ww inspect1 c h0,
    setWeaveWaitEntrypoint_nonempty_eq_wrap ww inspect2 c h0]
  refine ⟨rfl, ?_⟩
  by_cases hhead : (c.Entrypoint.getD []).headD "" = ww.headD ""
  · exact ⟨c, wrapEntrypoint_of_head_eq ww c h0 hhead, rfl, Or.inl rfl⟩
  · exact ⟨_, wrapEntrypoint_of_head_ne ww c h0 hhead, rfl, Or.inr rfl⟩

/-- Witness for C10: with entrypoint `["/bin/app"]`, two different
engines give the same result, which succeeds, keeps `Cmd`, and prepends
the wrapper. -/
theorem setWeaveWaitEntrypoint_nonempty_frame_witness :
    setWeaveWaitEntrypoint ["/w/w"] (fun _ => .error .noSuchImage)
        { Entrypoint := some ["/bin/app"], Cmd := some ["arg"] } =
      setWeaveWaitEntrypoint ["/w/w"] (fun _ => .error (.other "engine down"))
        { Entrypoint := some ["/bin/app"], Cmd := some ["arg"] }
    ∧ ∃ c2, setWeaveWaitEntrypoint ["/w/w"] (fun _ => .error .noSuchImage)
          { Entrypoint := some ["/bin/app"], Cmd := some ["arg"] } = .ok c2 ∧
        c2.Cmd = some ["arg"] ∧
        (c2 = { Entrypoint := some ["/bin/app"], Cmd := some ["arg"] } ∨
         c2 = { Entrypoint := some (["/w/w"] ++ ["/bin/app"]), Cmd := some ["arg"] }) :=
  setWeaveWaitEntrypoint_nonempty_frame ["/w/w"] (fun _ => .error .noSuchImage)
    (fun _ => .error (.other "engine down"))
    { Entrypoint := some ["/bin/app"], Cmd := some ["arg"] } (by decide)

/-- C2: `setWeaveWaitEntrypoint` fails with `ErrNoSuchImage` carrying
exactly `config.Image` precisely when the entrypoint is empty and the
engine reports no-such-image; it propagates any other inspection error
verbatim (same message) precisely when the entrypoint is empty and the
engine so fails; it fails with `ErrNoCommandSpecified` precisely when,
after the image-default step, both entrypoint and cmd are still empty;
and whenever none of these error conditions holds it succeeds. -/
theorem setWeaveWaitEntrypoint_error_spec (ww : List String)
    (inspectImage : String → Except ImageInspectError DockerImage) (c : Config) :
    (∀ err, setWeaveWaitEntrypoint ww inspectImage c = .error err ↔
      slen c.Entrypoint = 0 ∧
        ((err = .noSuchImage c.Image ∧ inspectImage c.Image = .error .noSuchImage)
        ∨ (∃ e, err = .engine e ∧ inspectImage c.Image = .error (.other e))
        ∨ (err = .noCommandSpecified ∧ ∃ img, inspectImage c.Image = .ok img ∧
            slen (imageDefaults img c).Entrypoint = 0 ∧
            slen (imageDefaults img c).Cmd = 0)))
    ∧ (¬ (slen c.Entrypoint = 0 ∧
          (inspectImage c.Image = .error .noSuchImage
          ∨ (∃ e, inspectImage c.Image = .error (.other e))
          ∨ (∃ img, inspectImage c.Image = .ok img ∧
              slen (imageDefaults img c).Entrypoint = 0 ∧
              slen (imageDefaults img c).Cmd = 0))) →
        ∃ c2, setWeaveWaitEntrypoint ww inspectImage c = .ok c2) := by
  have hmain : ∀ err, setWeaveWaitEntrypoint ww inspectImage c = .error err ↔
      slen c.Entrypoint = 0 ∧
        ((err = .noSuchImage c.Image ∧ inspectImage c.Image = .error .noSuchImage)
        ∨ (∃ e, err = .engine e ∧ inspectImage c.Image = .error (.other e))
        ∨ (err = .noCommandSpecified ∧ ∃ img, inspectImage c.Image = .ok img ∧
            slen (imageDefaults img c).Entrypoint = 0 ∧
            slen (imageDefaults img c).Cmd = 0)) := by
    intro err
    by_cases h0 : slen c.Entrypoint = 0
    · rcases hins : inspectImage c.Image with e0 | img
      · cases e0 with
        | noSuchImage =>
          unfold setWeaveWaitEntrypoint entrypointFromImage
          rw [if_pos h0, hins]
          simp only [Except.bind]
          simp [h0, eq_comm]
        | other e0m =>
          unfold setWeaveWaitEntrypoint entrypointFromImage
          rw [if_pos h0, hins]
          simp only [Except.bind]
          simp [h0, eq_comm]
      · unfold setWeaveWaitEntrypoint entrypointFromImage
        rw [if_pos h0, hins]
        simp only [Except.bind]
        unfold wrapEntrypoint
        split_ifs with hb hw
        · simp [h0, hb, eq_comm]
        · simp [h0, hb]
        · simp [h0, hb]
    · rw [setWeaveWaitEntrypoint_nonempty_eq_wrap ww inspectImage c h0]
      unfold wrapEntrypoint
      split_ifs with hb hw <;> simp [h0, hb]
      · exact absurd hb.1 h0
  refine ⟨hmain, fun hno => ?_⟩
  rcases hres : setWeaveWaitEntrypoint ww inspectImage c with e | c2
  · exfalso
    rcases (hmain e).mp hres with ⟨h0, hcase⟩
    refine hno ⟨h0, ?_⟩
    rcases hcase with ⟨-, hi⟩ | ⟨e1, -, hi⟩ | ⟨-, img, hi, hb⟩
    · exact Or.inl hi
    · exact Or.inr (Or.inl ⟨e1, hi⟩)
    · exact Or.inr (Or.inr ⟨img, hi, hb⟩)
  · exact ⟨c2, rfl⟩

/-- Witness for C2: empty entrypoint and an engine without the image
give exactly `ErrNoSuchImage` with the requested image name. -/
theorem setWeaveWaitEntrypoint_error_spec_witness :
    setWeaveWaitEntrypoint ["/w/w"] (fun _ => .error .noSuchImage)
        { Image := "busybox" } = .error (.noSuchImage "busybox") :=
  ((setWeaveWaitEntrypoint_error_spec ["/w/w"] (fun _ => .error .noSuchImage)
      { Image := "busybox" }).1 (.noSuchImage "busybox")).mpr
    ⟨rfl, Or.inl ⟨rfl, rfl⟩⟩

/-- C3: with an empty entrypoint the image metadata is fetched and used:
an empty cmd is defaulted to the image's default command, an unset
(`nil`, as opposed to present-but-empty) entrypoint is defaulted to the
image's default entrypoint (a present-but-empty one is not), and
concretely, for an image with default entrypoint `["/bin/sh", "-c"]` and
default command `[]`, a spec with unset entrypoint and empty command
yields entrypoint `ww ++ ["/bin/sh", "-c"]` and command `[]`. -/
theorem setWeaveWaitEntrypoint_image_defaults (ww : List String)
    (inspectImage : String → Except ImageInspectError DockerImage)
    (c : Config) (img : DockerImage)
    (hhead : ww.headD "" ≠ "/bin/sh")
    (hins : inspectImage c.Image = .ok img)
    (hie : img.Config.Entrypoint = some ["/bin/sh", "-c"])
    (hic : img.Config.Cmd = some [])
    (hce : c.Entrypoint = none) (hcc : slen c.Cmd = 0) :
    setWeaveWaitEntrypoint ww inspectImage c =
      .ok { c with Entrypoint := some (ww ++ ["/bin/sh", "-c"]), Cmd := some [] }
    ∧ (∀ (d : Config) (i : DockerImage), slen d.Cmd = 0 →
        (imageDefaults i d).Cmd = i.Config.Cmd)
    ∧ (∀ (d : Config) (i : DockerImage), d.Entrypoint = none →
        (imageDefaults i d).Entrypoint = i.Config.Entrypoint)
    ∧ (∀ (d : Config) (i : DockerImage), d.Entrypoint = some [] →
        (imageDefaults i d).Entrypoint = some []) := by
  refine ⟨?_, ?_, ?_, ?_⟩
  · have h0 : slen c.Entrypoint = 0 := by rw [hce]; rfl
    have h1 : imageDefaults img c =
        { c with Entrypoint := some ["/bin/sh", "-c"], Cmd := some [] } := by
      unfold imageDefaults
      simp [hcc, hce, hic, hie]
    unfold setWeaveWaitEntrypoint entrypointFromImage
    rw [if_pos h0, hins]
    simp only [Except.bind]
    rw [h1, wrapEntrypoint_of_head_ne ww _ (by simp [slen])
      (by simpa using Ne.symm hhead)]
    rfl
  · intro d i hd
    unfold imageDefaults
    rw [if_pos hd]
    by_cases he : d.Entrypoint = none <;> simp [he]
  · intro d i hd
    unfold imageDefaults
    by_cases hc : slen d.Cmd = 0 <;> simp [hc, hd]
  · intro d i hd
    unfold imageDefaults
    by_cases hc : slen d.Cmd = 0 <;> simp [hc, hd]

/-- Witness for C3 at the spec's concrete scenario. -/
theorem setWeaveWaitEntrypoint_image_defaults_witness :
    setWeaveWaitEntrypoint ["/w/w"]
        (fun _ => .ok { Config := { Entrypoint := some ["/bin/sh", "-c"], Cmd := some [] } })
        { Image := "busybox" } =
      .ok { Image := "busybox", Entrypoint := some (["/w/w"] ++ ["/bin/sh", "-c"]),
            Cmd := some [] } :=
  (setWeaveWaitEntrypoint_image_defaults ["/w/w"]
      (fun _ => .ok { Config := { Entrypoint := some ["/bin/sh", "-c"], Cmd := some [] } })
      { Image := "busybox" }
      { Config := { Entrypoint := some ["/bin/sh", "-c"], Cmd := some [] } }
      (by decide) rfl rfl rfl rfl rfl).1

/-- C9: when the address resolver reports an error ("not applicable"),
`InterceptRequest` still succeeds, applies none of the three mutation
steps — the forwarded body is exactly the re-encoding of the decoded
spec — and sets the content length to the byte length of that new
body. -/
theorem interceptRequest_resolver_error (p : Proxy) (nameParam : String) (body : JVal)
    (b : createContainerRequestBody) (e : String)
    (hdec : decodeBody body = .ok b)
    (hres : p.weaveCIDRsFromConfig b.Config b.HostConfig = .error e) :
    InterceptRequest p nameParam body =
      .ok (encodeBody b, (serializeJ (encodeBody b)).utf8ByteSize) := by
  unfold InterceptRequest
  rw [hdec]
  simp only [hres]

/-- Witness for C9 at a concrete request body. -/
theorem interceptRequest_resolver_error_witness :
    InterceptRequest { weaveCIDRsFromConfig := fun _ _ => .error "no CIDR" } ""
        (.obj (.cons "Image" (.str "busybox") .nil)) =
      .ok (encodeBody { Config := { Image := "busybox" } },
        (serializeJ (encodeBody { Config := { Image := "busybox" } })).utf8ByteSize) :=
  interceptRequest_resolver_error { weaveCIDRsFromConfig := fun _ _ => .error "no CIDR" }
    "" (.obj (.cons "Image" (.str "busybox") .nil))
    { Config := { Image := "busybox" } } "no CIDR" rfl rfl

/-- A request body consisting of one key unknown both to
`docker.Config`/`createContainerRequestBody` and to this embedding. -/
def unknownFieldBody : JVal := .obj (.cons "WeaveUnmodeledField" (.num 1) .nil)

/-- A proxy whose address resolver reports "not applicable" for every
container, so `InterceptRequest` takes the decode/encode-only path. -/
def noCidrProxy : Proxy := { weaveCIDRsFromConfig := fun _ _ => .error "no weave CIDR" }

/-- C1 fails on the code: `json.Unmarshal` into the typed
`createContainerRequestBody` struct discards every key the struct does
not model, and `json.Marshal` of the struct cannot resurrect them, so
even on the resolver-error path (no mutation at all) an unknown field
present in the input is absent from the forwarded body — not preserved
byte-for-byte as the spec's round-trip invariant demands.  Concretely the
input has the field, the pipeline succeeds, and the output is the empty
object. -/
theorem interceptRequest_drops_unknown_field :
    JObj.lookupLast (.cons "WeaveUnmodeledField" (.num 1) .nil) "WeaveUnmodeledField"
        = some (.num 1)
    ∧ InterceptRequest noCidrProxy "" unknownFieldBody = .ok (.obj .nil, 2)
    ∧ JObj.lookupLast .nil "WeaveUnmodeledField" = none :=
  ⟨rfl, rfl, rfl⟩

end Weave
